import Mathlib

/-!
Verification of the git cache client of `pipe` (`pkg/git/client.go`).

The Go code is shallowly embedded: the external `git` binary and the
filesystem are oracles supplied as parameters, and each function of the
source is translated into a pure Lean function over those oracles.

* `retryCommand` embeds the retry wrapper `retryCommand` (client.go
  lines 194-204).  The Go closure `commander` may behave differently on
  each invocation, so it is modelled as a function of the attempt index.
  Besides the returned output and error the embedding counts the
  warning logs, the `time.Sleep` calls and the attempts, which the Go
  loop performs once per failed attempt (the sleep and the warning also
  happen after the last failing attempt).
* `getLatestRemoteHashForBranch` embeds
  `client.GetLatestRemoteHashForBranch` (lines 72-88); the parse step
  `strings.Split(string(out), "\t")[0]` is embedded by `splitOnTab`,
  a direct translation of Go `strings.Split` for the one-character
  separator `\t`.
* `Clone` embeds `client.Clone` (lines 91-163) over an abstract client
  state recording which repository identifiers currently have a mirror
  directory on disk, and a `CloneEnv` oracle giving the outcome of each
  fallible external step.  The trace records the git operations issued
  (each of which the code may internally retry).  `Clean` embeds
  `client.Clean` (lines 166-168), which removes the whole cache root.

Errors distinguish cancellation (`context.Canceled` surfaced by
`exec.CommandContext` + `CombinedOutput` in `runGitCommand`, lines
187-191) from other failures, because the retry wrapper's treatment of
cancellation is examined below.
-/

/-- Error returned by a git command invocation: either the caller's
context was cancelled, or some other failure described by a message. -/
inductive GErr
  | canceled
  | other (msg : String)
deriving DecidableEq, Repr

/-- Result of `retryCommand`: the final output and error, together with
the number of warning logs, sleeps and attempts the loop performed. -/
structure RetryOut where
  out : String
  err : Option GErr
  warns : Nat
  sleeps : Nat
  attempts : Nat
deriving DecidableEq, Repr

/-- The loop body of `retryCommand` (client.go lines 195-202), with the
current attempt index `i`, the remaining iteration count, and the values
of `out`, `err` and the event counters so far.  Go's `for i := 0;
i < retries; i++` is recursion on the remaining count. -/
def retryFrom (commander : Nat → String × Option GErr) :
    Nat → Nat → String → Option GErr → Nat → Nat → Nat → RetryOut
  | _, 0, o, e, w, s, a => ⟨o, e, w, s, a⟩
  | i, r + 1, _, _, w, s, a =>
    let p := commander i
    if p.2 = none then ⟨p.1, none, w, s, a + 1⟩
    else retryFrom commander (i + 1) r p.1 p.2 (w + 1) (s + 1) (a + 1)

/-- `retryCommand` (client.go lines 194-204): run `commander` up to
`retries` times, stopping at the first success; return the last output
and error.  With `retries = 0` the loop never runs and the Go zero
values (`nil` output, `nil` error) are returned. -/
def retryCommand (retries : Nat) (commander : Nat → String × Option GErr) : RetryOut :=
  retryFrom commander 0 retries "" none 0 0 0

/-- Go `strings.Split(s, "\t")` restricted to the one-character
separator actually used by the source: split around every tab. -/
def splitOnTab : List Char → List (List Char)
  | [] => [[]]
  | c :: rest =>
    if c = '\t' then [] :: splitOnTab rest
    else
      match splitOnTab rest with
      | [] => [[c]]
      | g :: gs => (c :: g) :: gs

/-- `parts[0]` of `strings.Split(string(out), "\t")` (client.go lines
86-87): everything before the first tab of the output. -/
def firstField (s : String) : String :=
  ⟨(splitOnTab s.data).headD []⟩

/-- `client.GetLatestRemoteHashForBranch` (client.go lines 72-88).
`exec` is the external-command oracle: given the attempt index and the
argument list passed to `runGitCommand`, it yields combined output and
an error.  The source builds `ref = "refs/heads/" + branch`, runs
`ls-remote ref` through `retryCommand 3`, propagates a failure as
`("", err)`, and otherwise returns the part of the output before the
first tab with a nil error.  The `remote` parameter is used by the
source only inside a log message. -/
def getLatestRemoteHashForBranch (remote branch : String)
    (exec : Nat → List String → String × Option GErr) : String × Option GErr :=
  let _ := remote
  let ref := "refs/heads/" ++ branch
  let r := retryCommand 3 (fun i => exec i ["ls-remote", ref])
  if r.err = none then (firstField r.out, none) else ("", r.err)

/-- Spec-side description of the parse step of
`GetLatestRemoteHashForBranch`: everything strictly before the first
tab, the whole (untrimmed) string when no tab occurs. -/
def beforeFirstTab (s : String) : String :=
  ⟨s.data.takeWhile (fun c => c != '\t')⟩

/-- The immutable configuration of a `client` (client.go lines 39-47):
identity, git binary path and cache root directory. -/
structure ClientCfg where
  username : String
  email : String
  gitPath : String
  cacheDir : String
deriving DecidableEq, Repr

/-- The on-disk cache state of a client: the repository full names whose
mirror path currently exists under the cache root. -/
structure ClientState where
  cached : List String
deriving DecidableEq, Repr

/-- A git operation issued by `Clone`.  Each operation stands for one
(possibly internally retried) invocation of the git binary. -/
inductive GitOp
  | mirrorClone (remote path : String)
  | fetch (dir : String)
  | localClone (src dst : String)
  | setUser (username email : String)
deriving DecidableEq, Repr

def GitOp.isMirrorClone : GitOp → Bool
  | .mirrorClone _ _ => true
  | _ => false

def GitOp.isFetch : GitOp → Bool
  | .fetch _ => true
  | _ => false

def GitOp.isLocalClone : GitOp → Bool
  | .localClone _ _ => true
  | _ => false

/-- Oracle for the fallible external steps of one `Clone` call:
whether `os.Stat` fails with an error other than not-exist, and whether
each directory creation and each (retry-wrapped) git operation
ultimately succeeds. -/
structure CloneEnv where
  statErr : Bool
  mkdirParentOk : Bool
  mirrorCloneOk : Bool
  fetchOk : Bool
  mkdirDestOk : Bool
  localCloneOk : Bool
  setUserOk : Bool
deriving DecidableEq, Repr

/-- The working-copy handle built by `NewRepo(repoFullName, destination,
gitPath, remote, logger)` at client.go line 155 (the logger carries no
data relevant here). -/
structure Repo where
  name : String
  dir : String
  gitPath : String
  remote : String
deriving DecidableEq, Repr

/-- Result of one `Clone` call: the returned handle (`none` on error),
the cache state afterwards, and the trace of git operations issued. -/
structure CloneOut where
  res : Option Repo
  state : ClientState
  trace : List GitOp
deriving DecidableEq, Repr

/-- The mirror path computed at client.go line 94:
`filepath.Join(c.cacheDir, repoFullName) + ".git"`.  `filepath.Join` is
embedded as separator concatenation (the paths involved are already
clean). -/
def repoCachePath (cacheDir repoFullName : String) : String :=
  cacheDir ++ "/" ++ repoFullName ++ ".git"

/-- The tail of `Clone` after the mirror was brought up to date
(client.go lines 141-162): create the destination directory, clone
locally from the mirror, build the handle, and configure the identity
when a user name or email was given.  `s` is the cache state after the
mirror update and is returned unchanged by every branch. -/
def afterMirror (cfg : ClientCfg) (s : ClientState)
    (remote repoFullName destination path : String) (env : CloneEnv)
    (tr : List GitOp) : CloneOut :=
  if !env.mkdirDestOk then ⟨none, s, tr⟩
  else
    let tr := tr ++ [GitOp.localClone path destination]
    if !env.localCloneOk then ⟨none, s, tr⟩
    else
      let r : Repo := ⟨repoFullName, destination, cfg.gitPath, remote⟩
      if cfg.username ≠ "" ∨ cfg.email ≠ "" then
        let tr := tr ++ [GitOp.setUser cfg.username cfg.email]
        if !env.setUserOk then ⟨none, s, tr⟩ else ⟨some r, s, tr⟩
      else ⟨some r, s, tr⟩

/-- `client.Clone` (client.go lines 91-163).  The stat of the mirror
path (line 105) either fails with an ambiguous error (`env.statErr`),
reports not-exist (identifier not in `s.cached`), or reports existence.
On a cache miss the parent directories are created and a mirror clone
is performed, adding the identifier to the cache; on a cache hit a
fetch of the existing mirror is performed.  Either way control then
passes to `afterMirror`.  On any failure the call returns an error and
the mirror directory is never deleted. -/
def Clone (cfg : ClientCfg) (s : ClientState)
    (base repoFullName destination : String) (env : CloneEnv) : CloneOut :=
  let remote := base ++ "/" ++ repoFullName
  let path := repoCachePath cfg.cacheDir repoFullName
  if env.statErr then ⟨none, s, []⟩
  else if repoFullName ∈ s.cached then
    let tr := [GitOp.fetch path]
    if !env.fetchOk then ⟨none, s, tr⟩
    else afterMirror cfg s remote repoFullName destination path env tr
  else
    if !env.mkdirParentOk then ⟨none, s, []⟩
    else
      let tr := [GitOp.mirrorClone remote path]
      if !env.mirrorCloneOk then ⟨none, s, tr⟩
      else afterMirror cfg ⟨repoFullName :: s.cached⟩ remote repoFullName destination path env tr

/-- `client.Clean` (client.go lines 166-168): `os.RemoveAll(c.cacheDir)`
removes the whole cache root, so afterwards no mirror path exists. -/
def Clean (_ : ClientState) : ClientState := ⟨[]⟩

/-- Mirror-clone operations in a trace. -/
def mirrorCloneCount (tr : List GitOp) : Nat := tr.countP GitOp.isMirrorClone

/-- Fetch operations in a trace. -/
def fetchCount (tr : List GitOp) : Nat := tr.countP GitOp.isFetch

/-- Local (checkout) clone operations in a trace. -/
def localCloneCount (tr : List GitOp) : Nat := tr.countP GitOp.isLocalClone

/-- A commander that fails on the first two attempts and then
succeeds, as in the spec's retry scenario. -/
def failTwice : Nat → String × Option GErr :=
  fun i => if i < 2 then ("boom", some (GErr.other "exit status 128")) else ("ok", none)

/-- A commander whose every attempt fails with the caller's
cancellation, as when the context is cancelled mid-retry. -/
def alwaysCanceled : Nat → String × Option GErr :=
  fun _ => ("", some GErr.canceled)

/-- External command yielding the spec's example `ls-remote` output. -/
def execTab : Nat → List String → String × Option GErr :=
  fun _ _ => ("abc123deadbeef\trefs/heads/main\n", none)

/-- External command yielding output with no tab character. -/
def execNoTab : Nat → List String → String × Option GErr :=
  fun _ _ => ("abc123\n", none)

/-- External command succeeding with empty output, as `git ls-remote`
does when the requested ref does not exist on the remote. -/
def execEmpty : Nat → List String → String × Option GErr :=
  fun _ _ => ("", none)

/-- A concrete client configuration with an identity. -/
def cfgW : ClientCfg := ⟨"user", "user@example.com", "/usr/bin/git", "/tmp/gitcache"⟩

/-- Environment where every external step succeeds. -/
def envAllOk : CloneEnv := ⟨false, true, true, true, true, true, true⟩

/-- Environment where the fetch of the mirror fails. -/
def envFetchFail : CloneEnv := ⟨false, true, true, false, true, true, true⟩

/-- Environment where the local checkout clone fails. -/
def envLocalCloneFail : CloneEnv := ⟨false, true, true, true, true, false, true⟩

-- Sanity checks of the embedding on concrete inputs.
example : firstField "abc123deadbeef\trefs/heads/main\n" = "abc123deadbeef" := by decide
example : firstField "" = "" := by decide
example : firstField "abc\n" = "abc\n" := by decide
example :
    (Clone cfgW ⟨[]⟩ "https://github.com" "org/repo" "/dst" envAllOk).trace =
    [GitOp.mirrorClone "https://github.com/org/repo" "/tmp/gitcache/org/repo.git",
     GitOp.localClone "/tmp/gitcache/org/repo.git" "/dst",
     GitOp.setUser "user" "user@example.com"] := by decide
example :
    (Clone cfgW ⟨["org/repo"]⟩ "https://github.com" "org/repo" "/dst" envAllOk).trace =
    [GitOp.fetch "/tmp/gitcache/org/repo.git",
     GitOp.localClone "/tmp/gitcache/org/repo.git" "/dst",
     GitOp.setUser "user" "user@example.com"] := by decide

lemma retryFrom_succ_none (c : Nat → String × Option GErr) (i r : Nat)
    (o : String) (e : Option GErr) (w s a : Nat) (h : (c i).2 = none) :
    retryFrom c i (r + 1) o e w s a = ⟨(c i).1, none, w, s, a + 1⟩ := by
  simp [retryFrom, h]

lemma retryFrom_succ_some (c : Nat → String × Option GErr) (i r : Nat)
    (o : String) (e : Option GErr) (w s a : Nat)
    (e' : GErr) (h : (c i).2 = some e') :
    retryFrom c i (r + 1) o e w s a =
      retryFrom c (i + 1) r (c i).1 (some e') (w + 1) (s + 1) (a + 1) := by
  simp [retryFrom, h]

/-- If the attempts at offsets `0..k-1` from `i` fail and the attempt at
offset `k` succeeds, the loop stops at that attempt: it returns its
output with no error, having logged and slept once per failure. -/
lemma retryFrom_success (c : Nat → String × Option GErr) :
    ∀ (r k i : Nat) (o : String) (e : Option GErr) (w s a : Nat),
      k < r → (∀ j, j < k → (c (i + j)).2.isSome) → (c (i + k)).2 = none →
      retryFrom c i r o e w s a = ⟨(c (i + k)).1, none, w + k, s + k, a + k + 1⟩ := by
  intro r
  induction r with
  | zero => intro k i o e w s a hk; omega
  | succ r ih =>
    intro k i o e w s a hk hfail hsucc
    cases k with
    | zero =>
      simp only [Nat.add_zero] at hsucc ⊢
      simp [retryFrom_succ_none c i r o e w s a hsucc]
    | succ k' =>
      have h0 : (c (i + 0)).2.isSome := hfail 0 (Nat.succ_pos k')
      rw [Option.isSome_iff_exists] at h0
      obtain ⟨e', he'⟩ := h0
      rw [Nat.add_zero] at he'
      rw [retryFrom_succ_some c i r o e w s a e' he']
      have hrec := ih k' (i + 1) (c i).1 (some e') (w + 1) (s + 1) (a + 1)
        (Nat.lt_of_succ_lt_succ hk)
        (fun j hj => by
          have := hfail (j + 1) (Nat.succ_lt_succ hj)
          rwa [show i + (j + 1) = i + 1 + j by omega] at this)
        (by rwa [show i + 1 + k' = i + (k' + 1) by omega])
      rw [hrec]
      have hik : i + 1 + k' = i + (k' + 1) := by omega
      rw [hik]
      congr 1 <;> omega

/-- If every attempt fails, the loop runs `r` times and returns the last
attempt's output and error, having logged and slept once per attempt. -/
lemma retryFrom_allfail (c : Nat → String × Option GErr) :
    ∀ (r i : Nat) (o : String) (e : Option GErr) (w s a : Nat),
      0 < r → (∀ j, j < r → (c (i + j)).2.isSome) →
      retryFrom c i r o e w s a =
        ⟨(c (i + r - 1)).1, (c (i + r - 1)).2, w + r, s + r, a + r⟩ := by
  intro r
  induction r with
  | zero => intro i o e w s a h; omega
  | succ r ih =>
    intro i o e w s a _ hfail
    have h0 : (c (i + 0)).2.isSome := hfail 0 (Nat.succ_pos r)
    rw [Option.isSome_iff_exists] at h0
    obtain ⟨e', he'⟩ := h0
    rw [Nat.add_zero] at he'
    rw [retryFrom_succ_some c i r o e w s a e' he']
    cases r with
    | zero =>
      simp [retryFrom, he']
    | succ r' =>
      have hrec := ih (i + 1) (c i).1 (some e') (w + 1) (s + 1) (a + 1)
        (Nat.succ_pos r')
        (fun j hj => by
          have := hfail (j + 1) (Nat.succ_lt_succ hj)
          rwa [show i + (j + 1) = i + 1 + j by omega] at this)
      rw [hrec]
      rw [show i + 1 + (r' + 1) - 1 = i + (r' + 1 + 1) - 1 by omega]
      congr 1 <;> omega

lemma splitOnTab_ne_nil (l : List Char) : splitOnTab l ≠ [] := by
  cases l with
  | nil => simp [splitOnTab]
  | cons c rest =>
    by_cases h : c = '\t'
    · simp [splitOnTab, h]
    · simp only [splitOnTab, if_neg h]
      cases splitOnTab rest <;> simp

/-- The first part produced by splitting on tabs is the longest
tab-free prefix. -/
lemma splitOnTab_headD (l : List Char) :
    (splitOnTab l).headD [] = l.takeWhile (fun c => c != '\t') := by
  induction l with
  | nil => rfl
  | cons c rest ih =>
    by_cases h : c = '\t'
    · subst h
      simp [splitOnTab, List.takeWhile]
    · simp only [splitOnTab, if_neg h, List.takeWhile]
      have hb : (c != '\t') = true := by simpa using h
      rw [hb]
      cases hs : splitOnTab rest with
      | nil => exact absurd hs (splitOnTab_ne_nil rest)
      | cons g gs =>
        rw [hs] at ih
        simp at ih ⊢
        rw [ih]

lemma firstField_eq_beforeFirstTab (s : String) :
    firstField s = beforeFirstTab s := by
  unfold firstField beforeFirstTab
  rw [splitOnTab_headD]

/-- `afterMirror` only appends local-clone and set-user operations, so
it does not change the mirror-clone count of the trace. -/
lemma afterMirror_mirrorCloneCount (cfg : ClientCfg) (s : ClientState)
    (remote name dest path : String) (env : CloneEnv) (tr : List GitOp) :
    mirrorCloneCount (afterMirror cfg s remote name dest path env tr).trace =
      mirrorCloneCount tr := by
  unfold afterMirror
  split_ifs <;>
    simp [mirrorCloneCount, List.countP_append, List.countP_cons,
      GitOp.isMirrorClone]

/-- `afterMirror` only appends local-clone and set-user operations, so
it does not change the fetch count of the trace. -/
lemma afterMirror_fetchCount (cfg : ClientCfg) (s : ClientState)
    (remote name dest path : String) (env : CloneEnv) (tr : List GitOp) :
    fetchCount (afterMirror cfg s remote name dest path env tr).trace =
      fetchCount tr := by
  unfold afterMirror
  split_ifs <;>
    simp [fetchCount, List.countP_append, List.countP_cons, GitOp.isFetch]

/-- `afterMirror` never changes the cache state. -/
lemma afterMirror_state (cfg : ClientCfg) (s : ClientState)
    (remote name dest path : String) (env : CloneEnv) (tr : List GitOp) :
    (afterMirror cfg s remote name dest path env tr).state = s := by
  unfold afterMirror
  split_ifs <;> rfl

/-- Every operation of the incoming trace is still in the trace
`afterMirror` returns. -/
lemma afterMirror_trace_mem (cfg : ClientCfg) (s : ClientState)
    (remote name dest path : String) (env : CloneEnv) (tr : List GitOp)
    (op : GitOp) (h : op ∈ tr) :
    op ∈ (afterMirror cfg s remote name dest path env tr).trace := by
  unfold afterMirror
  split_ifs <;> simp [h]

/-- When the destination creation, the local clone, or the requested
identity configuration fails, `afterMirror` reports an error and leaves
the cache state unchanged. -/
lemma afterMirror_failure (cfg : ClientCfg) (s : ClientState)
    (remote name dest path : String) (env : CloneEnv) (tr : List GitOp)
    (hfail : env.mkdirDestOk = false ∨ env.localCloneOk = false ∨
      ((cfg.username ≠ "" ∨ cfg.email ≠ "") ∧ env.setUserOk = false)) :
    (afterMirror cfg s remote name dest path env tr).res = none ∧
    (afterMirror cfg s remote name dest path env tr).state = s := by
  unfold afterMirror
  split_ifs <;> simp_all

/-- C2: `retryCommand` invokes the operation until it succeeds or the
attempt budget is exhausted and returns the last result regardless of
outcome: the first successful attempt's output with a nil error, or —
when every attempt fails — the final attempt's output and error.  One
warning is logged and one sleep is performed per failed attempt; in
particular with `retries = 3` and an operation failing twice then
succeeding it returns the successful output with a nil error, exactly
two warning logs, and two sleeps total (hence zero sleeps after the
third, successful attempt). -/
theorem retryCommand_returns_last_result :
    (∀ (N k : Nat) (c : Nat → String × Option GErr),
      k < N → (∀ j, j < k → (c j).2.isSome) → (c k).2 = none →
      retryCommand N c = ⟨(c k).1, none, k, k, k + 1⟩) ∧
    (∀ (N : Nat) (c : Nat → String × Option GErr),
      0 < N → (∀ j, j < N → (c j).2.isSome) →
      retryCommand N c = ⟨(c (N - 1)).1, (c (N - 1)).2, N, N, N⟩) ∧
    retryCommand 3 failTwice = ⟨"ok", none, 2, 2, 3⟩ := by
  refine ⟨?_, ?_, by decide⟩
  · intro N k c hk hfail hsucc
    have h := retryFrom_success c N k 0 "" none 0 0 0 hk
      (fun j hj => by rw [Nat.zero_add]; exact hfail j hj)
      (by rwa [Nat.zero_add])
    unfold retryCommand
    rw [h]
    simp
  · intro N c hN hfail
    have h := retryFrom_allfail c N 0 "" none 0 0 0 hN
      (fun j hj => by rw [Nat.zero_add]; exact hfail j hj)
    unfold retryCommand
    rw [h]
    simp

/-- Witness for the C2 theorem at the concrete fails-twice commander. -/
theorem retryCommand_returns_last_result_witness :
    retryCommand 3 failTwice = ⟨(failTwice 2).1, none, 2, 2, 3⟩ :=
  retryCommand_returns_last_result.1 3 2 failTwice (by decide)
    (fun j hj => by interval_cases j <;> decide) (by decide)

/-- C8 counterexample: with every attempt failing because the caller's
context is cancelled, `retryCommand 3` still performs all three
attempts, logs three warnings and sleeps three times, rather than
stopping after the first cancelled attempt as the claim states. -/
theorem retryCommand_cancellation_counterexample :
    retryCommand 3 alwaysCanceled = ⟨"", some GErr.canceled, 3, 3, 3⟩ ∧
    (retryCommand 3 alwaysCanceled).attempts ≠ 1 := by decide

/-- C8 amended: `retryCommand` does not special-case cancellation; a
cancelled attempt is retried like any other failure until the budget of
`N` attempts is exhausted, and the cancellation error is then returned
as the last result. -/
theorem retryCommand_cancellation_exhausts_budget
    (N : Nat) (c : Nat → String × Option GErr) (hN : 0 < N)
    (hc : ∀ j, j < N → (c j).2 = some GErr.canceled) :
    retryCommand N c = ⟨(c (N - 1)).1, some GErr.canceled, N, N, N⟩ := by
  have hlast : (c (N - 1)).2 = some GErr.canceled := hc (N - 1) (by omega)
  have h := retryFrom_allfail c N 0 "" none 0 0 0 hN
    (fun j hj => by rw [Nat.zero_add, hc j hj]; rfl)
  unfold retryCommand
  rw [h]
  simp [hlast]

/-- Witness for the C8 amended theorem at the concrete always-cancelled
commander. -/
theorem retryCommand_cancellation_exhausts_budget_witness :
    retryCommand 2 alwaysCanceled = ⟨(alwaysCanceled 1).1, some GErr.canceled, 2, 2, 2⟩ :=
  retryCommand_cancellation_exhausts_budget 2 alwaysCanceled (by decide)
    (fun j hj => rfl)

/-- C3 counterexample: for successful output `"abc123\n"`, which has no
tab, `GetLatestRemoteHashForBranch` returns the whole untrimmed output
`"abc123\n"` — newline included — not the trimmed string `"abc123"`
that the claim describes for the no-tab case. -/
theorem getLatestRemoteHash_no_trim_counterexample :
    getLatestRemoteHashForBranch "origin" "main" execNoTab = ("abc123\n", none) ∧
    "abc123\n" ≠ "abc123" := by decide

/-- C3 amended: when the retried ls-remote command succeeds,
`GetLatestRemoteHashForBranch` returns everything strictly before the
first tab character of the raw output — the whole untrimmed output when
no tab occurs — with a nil error; in particular for output
`"abc123deadbeef\trefs/heads/main\n"` it returns `"abc123deadbeef"`. -/
theorem getLatestRemoteHash_before_first_tab :
    (∀ (remote branch : String) (exec : Nat → List String → String × Option GErr),
      (retryCommand 3 (fun i => exec i ["ls-remote", "refs/heads/" ++ branch])).err = none →
      getLatestRemoteHashForBranch remote branch exec =
        (beforeFirstTab
          (retryCommand 3 (fun i => exec i ["ls-remote", "refs/heads/" ++ branch])).out,
         none)) ∧
    getLatestRemoteHashForBranch "origin" "main" execTab = ("abc123deadbeef", none) := by
  refine ⟨?_, by decide⟩
  intro remote branch exec h
  unfold getLatestRemoteHashForBranch
  simp [h, firstField_eq_beforeFirstTab]

/-- Witness for the C3 amended theorem at the spec's example output. -/
theorem getLatestRemoteHash_before_first_tab_witness :
    getLatestRemoteHashForBranch "origin" "main" execTab =
      (beforeFirstTab
        (retryCommand 3 (fun i => execTab i ["ls-remote", "refs/heads/" ++ "main"])).out,
       none) :=
  getLatestRemoteHash_before_first_tab.1 "origin" "main" execTab (by decide)

/-- C4 counterexample: when the command succeeds with empty output (as
when the branch ref is absent from the remote listing), the function
returns the empty hash with a nil error instead of an error. -/
theorem getLatestRemoteHash_empty_output_counterexample :
    getLatestRemoteHashForBranch "origin" "main" execEmpty = ("", none) ∧
    ¬ (getLatestRemoteHashForBranch "origin" "main" execEmpty).2.isSome := by decide

/-- C4 amended: `GetLatestRemoteHashForBranch` performs no validation of
the output: the returned error is exactly the retried command's error,
so a successful listing never yields an error whatever its content, and
an absent ref yields the empty string with a nil error. -/
theorem getLatestRemoteHash_err_is_command_err
    (remote branch : String) (exec : Nat → List String → String × Option GErr) :
    (getLatestRemoteHashForBranch remote branch exec).2 =
      (retryCommand 3 (fun i => exec i ["ls-remote", "refs/heads/" ++ branch])).err := by
  unfold getLatestRemoteHashForBranch
  dsimp only
  split_ifs with h
  · simp [h]
  · simp

/-- C10: the result of `GetLatestRemoteHashForBranch` does not depend on
the `remote` argument, which the source uses only inside a log message
and never passes to the external command. -/
theorem getLatestRemoteHash_independent_of_remote
    (remote₁ remote₂ branch : String)
    (exec : Nat → List String → String × Option GErr) :
    getLatestRemoteHashForBranch remote₁ branch exec =
      getLatestRemoteHashForBranch remote₂ branch exec := rfl

lemma mirrorCloneCount_singleton_clone (remote path : String) :
    mirrorCloneCount [GitOp.mirrorClone remote path] = 1 := by
  simp [mirrorCloneCount, List.countP_cons, GitOp.isMirrorClone]

lemma fetchCount_singleton_clone (remote path : String) :
    fetchCount [GitOp.mirrorClone remote path] = 0 := by
  simp [fetchCount, List.countP_cons, GitOp.isFetch]

lemma fetchCount_singleton_fetch (dir : String) :
    fetchCount [GitOp.fetch dir] = 1 := by
  simp [fetchCount, List.countP_cons, GitOp.isFetch]

lemma mirrorCloneCount_singleton_fetch (dir : String) :
    mirrorCloneCount [GitOp.fetch dir] = 0 := by
  simp [mirrorCloneCount, List.countP_cons, GitOp.isMirrorClone]

lemma localCloneCount_singleton_fetch (dir : String) :
    localCloneCount [GitOp.fetch dir] = 0 := by
  simp [localCloneCount, List.countP_cons, GitOp.isLocalClone]

/-- A cache-miss `Clone` with a working stat and parent-directory
creation issues exactly one mirror-clone and no fetch, whether or not
the mirror-clone and the later steps succeed. -/
lemma clone_miss_counts (cfg : ClientCfg) (s : ClientState)
    (base name dest : String) (env : CloneEnv)
    (hmem : name ∉ s.cached) (hstat : env.statErr = false)
    (hmk : env.mkdirParentOk = true) :
    mirrorCloneCount (Clone cfg s base name dest env).trace = 1 ∧
    fetchCount (Clone cfg s base name dest env).trace = 0 := by
  by_cases hmc : env.mirrorCloneOk <;>
    simp [Clone, hstat, hmk, hmem, hmc, afterMirror_mirrorCloneCount,
      afterMirror_fetchCount, mirrorCloneCount_singleton_clone,
      fetchCount_singleton_clone]

/-- A cache-hit `Clone` with a working stat issues exactly one fetch
and no mirror-clone, whether or not the fetch and later steps
succeed. -/
lemma clone_hit_counts (cfg : ClientCfg) (s : ClientState)
    (base name dest : String) (env : CloneEnv)
    (hmem : name ∈ s.cached) (hstat : env.statErr = false) :
    fetchCount (Clone cfg s base name dest env).trace = 1 ∧
    mirrorCloneCount (Clone cfg s base name dest env).trace = 0 := by
  by_cases hf : env.fetchOk <;>
    simp [Clone, hstat, hmem, hf, afterMirror_mirrorCloneCount,
      afterMirror_fetchCount, fetchCount_singleton_fetch,
      mirrorCloneCount_singleton_fetch]

/-- C1: for an identifier whose mirror path does not exist (and whose
stat and parent-directory creation succeed), `Clone` issues exactly one
mirror-clone and no fetch; for an identifier whose mirror path exists,
`Clone` issues exactly one fetch and no mirror-clone; and after `Clean`
removes the cache root, the next `Clone` behaves identically to a
`Clone` on a never-seen identifier and issues a fresh mirror-clone. -/
theorem clone_miss_clones_hit_fetches_clean_resets :
    (∀ (cfg : ClientCfg) (s : ClientState) (base name dest : String) (env : CloneEnv),
      name ∉ s.cached → env.statErr = false → env.mkdirParentOk = true →
      mirrorCloneCount (Clone cfg s base name dest env).trace = 1 ∧
      fetchCount (Clone cfg s base name dest env).trace = 0) ∧
    (∀ (cfg : ClientCfg) (s : ClientState) (base name dest : String) (env : CloneEnv),
      name ∈ s.cached → env.statErr = false →
      fetchCount (Clone cfg s base name dest env).trace = 1 ∧
      mirrorCloneCount (Clone cfg s base name dest env).trace = 0) ∧
    (∀ (cfg : ClientCfg) (s : ClientState) (base name dest : String) (env : CloneEnv),
      env.statErr = false → env.mkdirParentOk = true →
      Clone cfg (Clean s) base name dest env = Clone cfg ⟨[]⟩ base name dest env ∧
      mirrorCloneCount (Clone cfg (Clean s) base name dest env).trace = 1 ∧
      fetchCount (Clone cfg (Clean s) base name dest env).trace = 0) := by
  refine ⟨fun cfg s base name dest env hmem hstat hmk =>
      clone_miss_counts cfg s base name dest env hmem hstat hmk,
    fun cfg s base name dest env hmem hstat =>
      clone_hit_counts cfg s base name dest env hmem hstat,
    fun cfg s base name dest env hstat hmk => ?_⟩
  have h := clone_miss_counts cfg ⟨[]⟩ base name dest env
    (by simp) hstat hmk
  exact ⟨rfl, h.1, h.2⟩

/-- Witness for the C1 theorem: a fresh identifier is mirror-cloned,
a cached identifier is fetched. -/
theorem clone_miss_clones_hit_fetches_clean_resets_witness :
    (mirrorCloneCount (Clone cfgW ⟨[]⟩ "https://github.com" "org/repo" "/dst" envAllOk).trace = 1 ∧
      fetchCount (Clone cfgW ⟨[]⟩ "https://github.com" "org/repo" "/dst" envAllOk).trace = 0) ∧
    (fetchCount (Clone cfgW ⟨["org/repo"]⟩ "https://github.com" "org/repo" "/dst" envAllOk).trace = 1 ∧
      mirrorCloneCount (Clone cfgW ⟨["org/repo"]⟩ "https://github.com" "org/repo" "/dst" envAllOk).trace = 0) :=
  ⟨clone_miss_clones_hit_fetches_clean_resets.1 cfgW ⟨[]⟩ "https://github.com"
      "org/repo" "/dst" envAllOk (by simp) rfl rfl,
    clone_miss_clones_hit_fetches_clean_resets.2.1 cfgW ⟨["org/repo"]⟩ "https://github.com"
      "org/repo" "/dst" envAllOk (by simp) rfl⟩

/-- C5 counterexample: with cache root `/tmp/gitcache` and repository
full name `org/repo`, a fresh `Clone` mirror-clones into
`/tmp/gitcache/org/repo.git` — the path carries a `.git` suffix and is
not the bare `<cache root>/<repository full name>` the claim states. -/
theorem clone_mirror_path_counterexample :
    (Clone cfgW ⟨[]⟩ "https://github.com" "org/repo" "/dst" envAllOk).trace.head? =
      some (GitOp.mirrorClone "https://github.com/org/repo" "/tmp/gitcache/org/repo.git") ∧
    "/tmp/gitcache/org/repo.git" ≠ "/tmp/gitcache/org/repo" := by decide

/-- C5 amended: the mirror entry is stored at
`<cache root>/<repository full name>.git`: the mirror-clone issued on a
cache miss and the fetch issued on a cache hit both target exactly that
path. -/
theorem clone_mirror_path_git_suffix
    (cfg : ClientCfg) (s : ClientState) (base name dest : String) (env : CloneEnv)
    (hstat : env.statErr = false) :
    (name ∉ s.cached → env.mkdirParentOk = true →
      GitOp.mirrorClone (base ++ "/" ++ name) (cfg.cacheDir ++ "/" ++ name ++ ".git") ∈
        (Clone cfg s base name dest env).trace) ∧
    (name ∈ s.cached →
      GitOp.fetch (cfg.cacheDir ++ "/" ++ name ++ ".git") ∈
        (Clone cfg s base name dest env).trace) := by
  constructor
  · intro hmem hmk
    by_cases hmc : env.mirrorCloneOk
    · have hC : Clone cfg s base name dest env =
          afterMirror cfg ⟨name :: s.cached⟩ (base ++ "/" ++ name) name dest
            (repoCachePath cfg.cacheDir name) env
            [GitOp.mirrorClone (base ++ "/" ++ name) (repoCachePath cfg.cacheDir name)] := by
        simp [Clone, hstat, hmem, hmk, hmc]
      rw [hC]
      exact afterMirror_trace_mem _ _ _ _ _ _ _ _ _ (by simp [repoCachePath])
    · have hC : Clone cfg s base name dest env =
          ⟨none, s, [GitOp.mirrorClone (base ++ "/" ++ name) (repoCachePath cfg.cacheDir name)]⟩ := by
        simp [Clone, hstat, hmem, hmk, hmc]
      rw [hC]
      simp [repoCachePath]
  · intro hmem
    by_cases hf : env.fetchOk
    · have hC : Clone cfg s base name dest env =
          afterMirror cfg s (base ++ "/" ++ name) name dest
            (repoCachePath cfg.cacheDir name) env
            [GitOp.fetch (repoCachePath cfg.cacheDir name)] := by
        simp [Clone, hstat, hmem, hf]
      rw [hC]
      exact afterMirror_trace_mem _ _ _ _ _ _ _ _ _ (by simp [repoCachePath])
    · have hC : Clone cfg s base name dest env =
          ⟨none, s, [GitOp.fetch (repoCachePath cfg.cacheDir name)]⟩ := by
        simp [Clone, hstat, hmem, hf]
      rw [hC]
      simp [repoCachePath]

/-- Witness for the C5 amended theorem: a fresh clone of `org/repo`
with cache root `/tmp/gitcache` mirror-clones into
`/tmp/gitcache/org/repo.git`. -/
theorem clone_mirror_path_git_suffix_witness :
    GitOp.mirrorClone ("https://github.com" ++ "/" ++ "org/repo")
        (cfgW.cacheDir ++ "/" ++ "org/repo" ++ ".git") ∈
      (Clone cfgW ⟨[]⟩ "https://github.com" "org/repo" "/dst" envAllOk).trace :=
  (clone_mirror_path_git_suffix cfgW ⟨[]⟩ "https://github.com" "org/repo" "/dst"
    envAllOk rfl).1 (by simp) rfl

/-- C6: when the identifier is already cached and the fetch fails after
its retries, `Clone` returns an error, issues no local checkout clone,
and leaves the cache state — including the existing mirror entry —
exactly as it was. -/
theorem clone_fetch_failure_preserves_cache
    (cfg : ClientCfg) (s : ClientState) (base name dest : String) (env : CloneEnv)
    (hmem : name ∈ s.cached) (hstat : env.statErr = false)
    (hfetch : env.fetchOk = false) :
    (Clone cfg s base name dest env).res = none ∧
    localCloneCount (Clone cfg s base name dest env).trace = 0 ∧
    (Clone cfg s base name dest env).state = s ∧
    name ∈ (Clone cfg s base name dest env).state.cached := by
  have hC : Clone cfg s base name dest env =
      ⟨none, s, [GitOp.fetch (repoCachePath cfg.cacheDir name)]⟩ := by
    simp [Clone, hstat, hmem, hfetch]
  rw [hC]
  exact ⟨rfl, localCloneCount_singleton_fetch _, rfl, hmem⟩

/-- Witness for the C6 theorem: a cached `org/repo` whose fetch fails
keeps its cache entry and produces no checkout. -/
theorem clone_fetch_failure_preserves_cache_witness :
    (Clone cfgW ⟨["org/repo"]⟩ "https://github.com" "org/repo" "/dst" envFetchFail).res = none ∧
    localCloneCount (Clone cfgW ⟨["org/repo"]⟩ "https://github.com" "org/repo" "/dst" envFetchFail).trace = 0 ∧
    (Clone cfgW ⟨["org/repo"]⟩ "https://github.com" "org/repo" "/dst" envFetchFail).state = ⟨["org/repo"]⟩ ∧
    "org/repo" ∈ (Clone cfgW ⟨["org/repo"]⟩ "https://github.com" "org/repo" "/dst" envFetchFail).state.cached :=
  clone_fetch_failure_preserves_cache cfgW ⟨["org/repo"]⟩ "https://github.com"
    "org/repo" "/dst" envFetchFail (by simp) rfl rfl

/-- C7: when the mirror update (mirror-clone on a miss, fetch on a hit)
succeeds but a later step fails — destination creation, the local
checkout clone, or the requested identity configuration — `Clone`
returns an error while the mirror entry remains present in its updated
state. -/
theorem clone_checkout_failure_keeps_mirror
    (cfg : ClientCfg) (s : ClientState) (base name dest : String) (env : CloneEnv)
    (hstat : env.statErr = false)
    (hmirror : if name ∈ s.cached then env.fetchOk = true
      else env.mkdirParentOk = true ∧ env.mirrorCloneOk = true)
    (hfail : env.mkdirDestOk = false ∨ env.localCloneOk = false ∨
      ((cfg.username ≠ "" ∨ cfg.email ≠ "") ∧ env.setUserOk = false)) :
    (Clone cfg s base name dest env).res = none ∧
    name ∈ (Clone cfg s base name dest env).state.cached := by
  by_cases hmem : name ∈ s.cached
  · rw [if_pos hmem] at hmirror
    have hC : Clone cfg s base name dest env =
        afterMirror cfg s (base ++ "/" ++ name) name dest
          (repoCachePath cfg.cacheDir name) env
          [GitOp.fetch (repoCachePath cfg.cacheDir name)] := by
      simp [Clone, hstat, hmem, hmirror]
    rw [hC]
    have hres := afterMirror_failure cfg s (base ++ "/" ++ name) name dest
      (repoCachePath cfg.cacheDir name) env
      [GitOp.fetch (repoCachePath cfg.cacheDir name)] hfail
    refine ⟨hres.1, ?_⟩
    rw [hres.2]
    exact hmem
  · rw [if_neg hmem] at hmirror
    obtain ⟨hmk, hmc⟩ := hmirror
    have hC : Clone cfg s base name dest env =
        afterMirror cfg ⟨name :: s.cached⟩ (base ++ "/" ++ name) name dest
          (repoCachePath cfg.cacheDir name) env
          [GitOp.mirrorClone (base ++ "/" ++ name) (repoCachePath cfg.cacheDir name)] := by
      simp [Clone, hstat, hmem, hmk, hmc]
    rw [hC]
    have hres := afterMirror_failure cfg ⟨name :: s.cached⟩ (base ++ "/" ++ name)
      name dest (repoCachePath cfg.cacheDir name) env
      [GitOp.mirrorClone (base ++ "/" ++ name) (repoCachePath cfg.cacheDir name)] hfail
    refine ⟨hres.1, ?_⟩
    rw [hres.2]
    exact List.mem_cons_self name s.cached

/-- Witness for the C7 theorem: a fresh clone of `org/repo` whose
mirror-clone succeeds but whose local checkout clone fails returns an
error while the new mirror entry stays cached. -/
theorem clone_checkout_failure_keeps_mirror_witness :
    (Clone cfgW ⟨[]⟩ "https://github.com" "org/repo" "/dst" envLocalCloneFail).res = none ∧
    "org/repo" ∈ (Clone cfgW ⟨[]⟩ "https://github.com" "org/repo" "/dst" envLocalCloneFail).state.cached :=
  clone_checkout_failure_keeps_mirror cfgW ⟨[]⟩ "https://github.com" "org/repo"
    "/dst" envLocalCloneFail rfl (by decide) (by decide)
